import Mathlib

/-!
Verification of `scenic/projects/owl_vit/models.py`
(`TextZeroShotDetectionModule`): checkpoint loading, query-mask
derivation, the box- and class-prediction heads, and the forward pass.

Nested parameter mappings (Python dicts of arrays) are modelled as
finite trees over string keys; tensors are modelled as nested lists of
real numbers; fallible operations (Python `KeyError` / `TypeError` /
contract violations) return `Option` / `Except`.
-/

/-- A nested parameter mapping: a Python dict whose values are either
array leaves (payload abstracted to `Nat`) or nested dicts. -/
inductive PTree where
  | leaf : Nat → PTree
  | node : List (String × PTree) → PTree

/-- Dictionary lookup `d[k]` on an association list (Python dicts have
unique keys; the first binding wins). -/
def lookupKey : List (String × PTree) → String → Option PTree
  | [], _ => none
  | (k', v) :: rest, k => if k' = k then some v else lookupKey rest k

/-- Dictionary assignment `d[k] = v` for a key already present: replaces
the bound value in place, keeping all other bindings. -/
def updateKey : List (String × PTree) → String → PTree → List (String × PTree)
  | [], _, _ => []
  | (k', v) :: rest, k, nv =>
      if k' = k then (k', nv) :: rest else (k', v) :: updateKey rest k nv

/-- Dictionary `d.pop(k, None)`: removes the binding for `k` if present. -/
def removeKey : List (String × PTree) → String → List (String × PTree)
  | [], _ => []
  | (k', v) :: rest, k => if k' = k then rest else (k', v) :: removeKey rest k

/-- `TextZeroShotDetectionModule.load_variables` (models.py lines 38-45),
applied to the restored checkpoint mapping: if the key `params` is
present return `{'params': restored['params']}`, otherwise return
`{'params': restored['optimizer']['target']}`; a missing key or a
non-mapping `optimizer` entry is a fatal `KeyError`/`TypeError`,
modelled as `none`. -/
def load_variables (restored : List (String × PTree)) : Option PTree :=
  match lookupKey restored "params" with
  | some p => some (PTree.node [("params", p)])
  | none =>
      match lookupKey restored "optimizer" with
      | some (PTree.node okvs) =>
          match lookupKey okvs "target" with
          | some t => some (PTree.node [("params", t)])
          | none => none
      | some (PTree.leaf _) => none
      | none => none

/-- The stale-key cleanup at the end of `load`'s default branch
(models.py lines 195-197): `params['class_head'].pop('padding', None)`
and `params['class_head'].pop('padding_bias', None)`. Reading
`params['class_head']` on a mapping without that key, or on a leaf,
raises (`KeyError`/`AttributeError`), modelled as `none`. -/
def stripStaleClassHead (params : PTree) : Option PTree :=
  match params with
  | PTree.leaf _ => none
  | PTree.node kvs =>
      match lookupKey kvs "class_head" with
      | some (PTree.node chkvs) =>
          some (PTree.node (updateKey kvs "class_head"
            (PTree.node (removeKey (removeKey chkvs "padding") "padding_bias"))))
      | some (PTree.leaf _) => none
      | none => none

/-- Default (non-backbone-codebase) branch of
`TextZeroShotDetectionModule.load` (models.py lines 185-198), applied to
the restored checkpoint mapping: if `optimizer` is present take
`restored['optimizer']['target']`, else take `restored['params']`; then
strip the stale `class_head` keys (the stripping is outside the inner
if/else, so it runs on both paths). -/
def load_scenic (restored : List (String × PTree)) : Option PTree :=
  match
    (match lookupKey restored "optimizer" with
     | some (PTree.node okvs) => lookupKey okvs "target"
     | some (PTree.leaf _) => none
     | none => lookupKey restored "params")
  with
  | some params => stripStaleClassHead params
  | none => none

/-- Backbone-codebase branch of `TextZeroShotDetectionModule.load`
(models.py lines 181-184):
`params['backbone'] = embedder.load_backbone(params['backbone'], path)`.
The external loader `load_backbone` is an opaque capability. Reading a
missing `backbone` key raises, modelled as `none`. -/
def load_clip (load_backbone : PTree → PTree)
    (params : List (String × PTree)) : Option (List (String × PTree)) :=
  match lookupKey params "backbone" with
  | some bb => some (updateKey params "backbone" (load_backbone bb))
  | none => none

/-- `TextZeroShotDetectionModule.load` (models.py lines 177-198). The
checkpoint restore is opaque I/O, so the restored mapping is passed as
an argument; `codebase` is `init_config.get('codebase')`. -/
def load (load_backbone : PTree → PTree) (codebase : Option String)
    (restored : List (String × PTree))
    (params : List (String × PTree)) : Option PTree :=
  if codebase = some "clip" then
    (load_clip load_backbone params).map PTree.node
  else
    load_scenic restored

theorem lookupKey_updateKey_self (kvs : List (String × PTree)) (k : String)
    (v : PTree) (h : (lookupKey kvs k).isSome) :
    lookupKey (updateKey kvs k v) k = some v := by
  induction kvs with
  | nil => simp [lookupKey] at h
  | cons hd tl ih =>
      obtain ⟨k', v'⟩ := hd
      by_cases hk : k' = k
      · simp [lookupKey, updateKey, hk]
      · simp [lookupKey, updateKey, hk] at h ⊢
        exact ih h

theorem lookupKey_updateKey_ne (kvs : List (String × PTree)) (k k' : String)
    (v : PTree) (h : k' ≠ k) :
    lookupKey (updateKey kvs k v) k' = lookupKey kvs k' := by
  induction kvs with
  | nil => simp [updateKey]
  | cons hd tl ih =>
      obtain ⟨k₀, v₀⟩ := hd
      by_cases hk : k₀ = k
      · subst hk
        have hne : k₀ ≠ k' := fun hh => h hh.symm
        simp [updateKey, lookupKey, hne]
      · simp only [updateKey, if_neg hk, lookupKey]
        by_cases hk' : k₀ = k'
        · simp [hk']
        · simp [hk', ih]

/-- C3: `load_variables` uses the content of `params` when that key is
present, otherwise falls back to `optimizer.target`, and whatever it
returns is always wrapped under the canonical `{"params": ...}` key. -/
theorem load_variables_normalizes :
    (∀ kvs p, lookupKey kvs "params" = some p →
        load_variables kvs = some (PTree.node [("params", p)])) ∧
    (∀ kvs okvs t, lookupKey kvs "params" = none →
        lookupKey kvs "optimizer" = some (PTree.node okvs) →
        lookupKey okvs "target" = some t →
        load_variables kvs = some (PTree.node [("params", t)])) ∧
    (∀ kvs out, load_variables kvs = some out →
        ∃ p, out = PTree.node [("params", p)]) := by
  refine ⟨?_, ?_, ?_⟩
  · intro kvs p hp
    simp [load_variables, hp]
  · intro kvs okvs t hp ho ht
    simp [load_variables, hp, ho, ht]
  · intro kvs out h
    unfold load_variables at h
    split at h
    · exact ⟨_, (Option.some.inj h).symm⟩
    · split at h
      · split at h
        · exact ⟨_, (Option.some.inj h).symm⟩
        · cases h
      · cases h
      · cases h

/-- Witness for C3 at a concrete one-key checkpoint mapping. -/
theorem load_variables_normalizes_witness :
    load_variables [("params", PTree.leaf 3)] =
      some (PTree.node [("params", PTree.leaf 3)]) :=
  load_variables_normalizes.1 [("params", PTree.leaf 3)] (PTree.leaf 3) rfl

/-- C2 counterexample: on a checkpoint whose only key is `params`, with
a `padding` entry under `class_head`, the default mode of `load` does
NOT return the content unchanged — the stale-key stripping also runs on
the `params` path. -/
theorem load_params_path_strips_cex :
    load_scenic
        [("params", PTree.node [("class_head",
            PTree.node [("padding", PTree.leaf 7)])])] =
      some (PTree.node [("class_head", PTree.node [])]) ∧
    (some (PTree.node [("class_head", PTree.node [])]) : Option PTree) ≠
      some (PTree.node [("class_head",
        PTree.node [("padding", PTree.leaf 7)])]) := by
  constructor
  · rfl
  · simp

/-- C2 (amended): in the default mode of `load`, the `optimizer.target`
path returns the target content after removing `padding`/`padding_bias`
from the `class_head` subtree, and the `params` path applies the same
stripping (rather than returning the content unchanged); the stripping
replaces the `class_head` subtree by its version without those two keys
and leaves every other key untouched. -/
theorem load_scenic_spec :
    (∀ t, load_scenic [("optimizer", PTree.node [("target", t)])] =
        stripStaleClassHead t) ∧
    (∀ p, load_scenic [("params", p)] = stripStaleClassHead p) ∧
    (∀ kvs ch, lookupKey kvs "class_head" = some (PTree.node ch) →
        ∃ out, stripStaleClassHead (PTree.node kvs) = some (PTree.node out) ∧
          lookupKey out "class_head" =
            some (PTree.node
              (removeKey (removeKey ch "padding") "padding_bias")) ∧
          ∀ k, k ≠ "class_head" → lookupKey out k = lookupKey kvs k) := by
  refine ⟨fun t => rfl, fun p => rfl, ?_⟩
  intro kvs ch h
  refine ⟨updateKey kvs "class_head"
      (PTree.node (removeKey (removeKey ch "padding") "padding_bias")),
    ?_, ?_, ?_⟩
  · simp [stripStaleClassHead, h]
  · exact lookupKey_updateKey_self kvs "class_head" _ (by rw [h]; rfl)
  · intro k hk
    exact lookupKey_updateKey_ne kvs "class_head" k _ hk

/-- Witness for C2's amended theorem at a concrete checkpoint. -/
theorem load_scenic_spec_witness :
    load_scenic [("optimizer", PTree.node [("target",
        PTree.node [("class_head", PTree.node [("padding", PTree.leaf 7)])])])] =
      stripStaleClassHead
        (PTree.node [("class_head", PTree.node [("padding", PTree.leaf 7)])]) ∧
    (∃ out, stripStaleClassHead
          (PTree.node [("class_head", PTree.node [("padding", PTree.leaf 7)])]) =
        some (PTree.node out) ∧
      lookupKey out "class_head" = some (PTree.node
        (removeKey (removeKey [("padding", PTree.leaf 7)] "padding")
          "padding_bias")) ∧
      ∀ k, k ≠ "class_head" → lookupKey out k =
        lookupKey [("class_head", PTree.node [("padding", PTree.leaf 7)])] k) :=
  ⟨load_scenic_spec.1
      (PTree.node [("class_head", PTree.node [("padding", PTree.leaf 7)])]),
   load_scenic_spec.2.2 [("class_head", PTree.node [("padding", PTree.leaf 7)])]
      [("padding", PTree.leaf 7)] rfl⟩

/-- C8: a restored checkpoint mapping with neither a `params` key nor an
`optimizer` key makes both `load_variables` and the default mode of
`load` fail instead of returning a parameter mapping. -/
theorem load_missing_keys_fatal (lb : PTree → PTree) (codebase : Option String)
    (restored params : List (String × PTree))
    (hcb : codebase ≠ some "clip")
    (hp : lookupKey restored "params" = none)
    (ho : lookupKey restored "optimizer" = none) :
    load_variables restored = none ∧
    load lb codebase restored params = none := by
  constructor
  · simp [load_variables, hp, ho]
  · simp [load, hcb, load_scenic, hp, ho]

/-- Witness for C8 at the empty checkpoint mapping. -/
theorem load_missing_keys_fatal_witness :
    load_variables [] = none ∧ load id none [] [] = none :=
  load_missing_keys_fatal id none [] [] (by simp) rfl rfl

/-- C7: in backbone-codebase mode (`codebase == "clip"`), `load` changes
only the `backbone` subtree: every other key keeps exactly the supplied
value (no stale-key stripping), and the result's `backbone` is the
external loader applied to the supplied `backbone` subtree. -/
theorem load_clip_frame (lb : PTree → PTree)
    (restored params out : List (String × PTree))
    (h : load lb (some "clip") restored params = some (PTree.node out)) :
    (∀ k, k ≠ "backbone" → lookupKey out k = lookupKey params k) ∧
    lookupKey out "backbone" = (lookupKey params "backbone").map lb := by
  unfold load load_clip at h
  rw [if_pos rfl] at h
  cases hb : lookupKey params "backbone" with
  | none => rw [hb] at h; cases h
  | some bb =>
      rw [hb] at h
      simp only [Option.map_some', Option.some.injEq, PTree.node.injEq] at h
      subst h
      constructor
      · intro k hk
        exact lookupKey_updateKey_ne params "backbone" k _ hk
      · rw [lookupKey_updateKey_self params "backbone" _ (by rw [hb]; rfl)]
        rfl

/-- Witness for C7: a two-key parameter mapping in clip mode keeps
`class_head` untouched and replaces `backbone` via the loader. -/
theorem load_clip_frame_witness :
    lookupKey [("backbone", PTree.leaf 9), ("class_head", PTree.leaf 1)]
        "backbone" =
      (lookupKey [("backbone", PTree.leaf 0), ("class_head", PTree.leaf 1)]
        "backbone").map (fun _ => PTree.leaf 9) :=
  (load_clip_frame (fun _ => PTree.leaf 9) []
    [("backbone", PTree.leaf 0), ("class_head", PTree.leaf 1)]
    [("backbone", PTree.leaf 9), ("class_head", PTree.leaf 1)] rfl).2

/-- C10: when a restored checkpoint has both a `params` key and an
`optimizer.target` key, `load_variables` returns the `params` content
while the default mode of `load` returns the `optimizer.target` content
(after stale-key stripping), so the two operations can disagree. -/
theorem load_precedence_disagree (kvs okvs : List (String × PTree)) (p t : PTree)
    (hp : lookupKey kvs "params" = some p)
    (ho : lookupKey kvs "optimizer" = some (PTree.node okvs))
    (ht : lookupKey okvs "target" = some t) :
    load_variables kvs = some (PTree.node [("params", p)]) ∧
    load_scenic kvs = stripStaleClassHead t := by
  constructor
  · simp [load_variables, hp]
  · simp [load_scenic, ho, ht]

/-- Witness for C10: a concrete checkpoint with both keys on which the
two loading operations return different parameter mappings. -/
theorem load_precedence_disagree_witness :
    load_variables [("params", PTree.leaf 1),
        ("optimizer", PTree.node [("target",
          PTree.node [("class_head", PTree.node [("padding", PTree.leaf 2)])])])] =
      some (PTree.node [("params", PTree.leaf 1)]) ∧
    load_scenic [("params", PTree.leaf 1),
        ("optimizer", PTree.node [("target",
          PTree.node [("class_head", PTree.node [("padding", PTree.leaf 2)])])])] =
      some (PTree.node [("class_head", PTree.node [])]) ∧
    (some (PTree.node [("params", PTree.leaf 1)]) : Option PTree) ≠
      some (PTree.node [("class_head", PTree.node [])]) := by
  have h := load_precedence_disagree
      [("params", PTree.leaf 1), ("optimizer", PTree.node [("target",
        PTree.node [("class_head", PTree.node [("padding", PTree.leaf 2)])])])]
      [("target", PTree.node [("class_head",
        PTree.node [("padding", PTree.leaf 2)])])]
      (PTree.leaf 1)
      (PTree.node [("class_head", PTree.node [("padding", PTree.leaf 2)])])
      rfl rfl rfl
  exact ⟨h.1, h.2.trans rfl, by simp⟩

/-- Query-mask value of one tokenized query (models.py line 161):
`(text_queries[..., 0] > 0).astype(jnp.float32)` reads only the first
token and tests it against zero with `>`. -/
def maskOf (q : List ℤ) : ℝ := if 0 < q.headD 0 then 1 else 0

/-- Query mask for one batch element: one value per query. -/
def queryMaskRow (queries : List (List ℤ)) : List ℝ := queries.map maskOf

/-- Query mask for a whole `[b, q, l]` batch of text queries. -/
def queryMask (text_queries : List (List (List ℤ))) : List (List ℝ) :=
  text_queries.map queryMaskRow

/-- C1 counterexample: a query whose first token is the nonzero integer
-1 yields mask value 0, not 1 — the code tests `> 0`, not `≠ 0`. -/
theorem query_mask_negative_token_cex :
    maskOf [(-1 : ℤ)] = 0 ∧ (-1 : ℤ) ≠ 0 := by
  constructor
  · norm_num [maskOf]
  · decide

/-- C1 (amended): the query mask is derived solely from each query's
first token, by the sign test `first > 0`: a first token of 0 yields
mask value 0, a positive first token yields mask value 1, and a
negative (though nonzero) first token also yields 0; the value is
independent of all later tokens. -/
theorem query_mask_first_token (t : ℤ) (rest rest' : List ℤ) :
    maskOf (t :: rest) = maskOf (t :: rest') ∧
    (t = 0 → maskOf (t :: rest) = 0) ∧
    (0 < t → maskOf (t :: rest) = 1) ∧
    (t < 0 → maskOf (t :: rest) = 0) := by
  refine ⟨rfl, ?_, ?_, ?_⟩
  · intro h
    subst h
    norm_num [maskOf]
  · intro h
    simp [maskOf, h]
  · intro h
    have hle : ¬ (0 : ℤ) < t := by omega
    simp [maskOf, hle]

/-- Witness for C1's amended theorem: first token 5 gives mask 1
independently of the later tokens. -/
theorem query_mask_first_token_witness :
    maskOf [(5 : ℤ), 0, 3] = maskOf [(5 : ℤ), 9] ∧
    maskOf [(5 : ℤ), 0, 3] = 1 :=
  ⟨(query_mask_first_token 5 [0, 3] [9]).1,
   (query_mask_first_token 5 [0, 3] [9]).2.2.1 (by norm_num)⟩

/-- Dot product of two feature vectors (truncating at the shorter). -/
noncomputable def dotProduct (a b : List ℝ) : ℝ := ((a.zip b).map fun p => p.1 * p.2).sum

/-- Weights of one dense layer. -/
structure DenseParams where
  weight : List (List ℝ)
  bias : List ℝ

/-- One dense (affine) layer: `W x + b`, one output per weight row. -/
noncomputable def dense (p : DenseParams) (x : List ℝ) : List ℝ :=
  (p.weight.zip p.bias).map fun wb => dotProduct wb.1 x + wb.2

/-- Weights of the three dense layers of the box head. -/
structure PredictorMLPParams where
  l1 : DenseParams
  l2 : DenseParams
  l3 : DenseParams

/-- Modelled from the spec: `layers.PredictorMLP` is not under `src/`.
Per §4.3 it is "a multi-layer regression head (3 layers, no output
activation)" mapping each patch's feature vector to raw coordinates;
the hidden activation is kept abstract as a parameter `act`. -/
noncomputable def predictorMLP (act : ℝ → ℝ) (p : PredictorMLPParams) (x : List ℝ) : List ℝ :=
  dense p.l3 ((dense p.l2 ((dense p.l1 x).map act)).map act)

/-- Inverse sigmoid. -/
noncomputable def logit (p : ℝ) : ℝ := Real.log (p / (1 - p))

/-- Modelled from the spec: `utils.compute_box_bias` is not under
`src/`. Per §4.1 and §8, at grid cell `(i, j)` of an `h × w` grid the
"location" bias is the logit of the normalized cell center
`((j+0.5)/w, (i+0.5)/h)` on the x/y channels with zero w/h channels,
the "size" bias is the logit of `1/gridsize` on the w/h channels with
zero x/y channels, and "both" populates all four channels. -/
noncomputable def boxBiasAt (kind : String) (h w i j : ℕ) : List ℝ :=
  if kind = "location" then
    [logit (((j : ℝ) + 1 / 2) / (w : ℝ)), logit (((i : ℝ) + 1 / 2) / (h : ℝ)), 0, 0]
  else if kind = "size" then
    [0, 0, logit (1 / (w : ℝ)), logit (1 / (h : ℝ))]
  else
    [logit (((j : ℝ) + 1 / 2) / (w : ℝ)), logit (((i : ℝ) + 1 / 2) / (h : ℝ)),
     logit (1 / (w : ℝ)), logit (1 / (h : ℝ))]

/-- Box bias for every cell of the flattened (row-major) `h × w` grid. -/
noncomputable def computeBoxBias (kind : String) (h w : ℕ) : List (List ℝ) :=
  (List.range (h * w)).map fun p => boxBiasAt kind h w (p / w) (p % w)

/-- Logistic sigmoid, `flax.linen.sigmoid` idealized over the reals. -/
noncomputable def sigmoid (x : ℝ) : ℝ := 1 / (1 + Real.exp (-x))

/-- Elementwise sum of two coordinate vectors (truncating). -/
noncomputable def addVec (a b : List ℝ) : List ℝ := (a.zip b).map fun p => p.1 + p.2

/-- The `pred_boxes` tensor of
`TextZeroShotDetectionModule.box_predictor` (models.py lines 57-78):
the 3-layer box head applied to each patch's features, plus the box
bias computed from the feature map's spatial shape, passed through an
element-wise sigmoid. -/
noncomputable def boxPredBoxes (act : ℝ → ℝ) (p : PredictorMLPParams) (kind : String)
    (image_features : List (List (List ℝ)))
    (feature_map : List (List (List (List ℝ)))) : List (List (List ℝ)) :=
  let hg := (feature_map.headD []).length
  let wg := ((feature_map.headD []).headD []).length
  let bias := computeBoxBias kind hg wg
  image_features.map fun feats =>
    ((feats.map (predictorMLP act p)).zip bias).map fun pb =>
      (addVec pb.1 pb.2).map sigmoid

/-- A tensor value appearing in an output record. -/
inductive TensorVal where
  | t3 : List (List (List ℝ)) → TensorVal
  | t4 : List (List (List (List ℝ))) → TensorVal

/-- `box_predictor`'s output record `{'pred_boxes': ...}`. -/
noncomputable def box_predictor (act : ℝ → ℝ) (p : PredictorMLPParams) (kind : String)
    (image_features : List (List (List ℝ)))
    (feature_map : List (List (List (List ℝ)))) : List (String × TensorVal) :=
  [("pred_boxes", TensorVal.t3 (boxPredBoxes act p kind image_features feature_map))]

theorem sigmoid_pos (x : ℝ) : 0 < sigmoid x := by
  unfold sigmoid
  positivity

theorem sigmoid_lt_one (x : ℝ) : sigmoid x < 1 := by
  unfold sigmoid
  rw [div_lt_one (by positivity)]
  linarith [Real.exp_pos (-x)]

/-- C4: every coordinate of the `pred_boxes` output of `box_predictor`
lies strictly between 0 and 1, for every box-bias kind and all (real,
hence finite) inputs — the raw 3-layer regression output plus the box
bias is passed through an element-wise sigmoid. -/
theorem pred_boxes_strictly_in_unit_interval
    (act : ℝ → ℝ) (p : PredictorMLPParams) (kind : String)
    (image_features : List (List (List ℝ)))
    (feature_map : List (List (List (List ℝ))))
    (batch : List (List ℝ)) (row : List ℝ) (x : ℝ)
    (hb : batch ∈ boxPredBoxes act p kind image_features feature_map)
    (hr : row ∈ batch) (hx : x ∈ row) :
    0 < x ∧ x < 1 := by
  simp only [boxPredBoxes, List.mem_map] at hb
  obtain ⟨feats, _, rfl⟩ := hb
  simp only [List.mem_map] at hr
  obtain ⟨pb, _, rfl⟩ := hr
  simp only [List.mem_map] at hx
  obtain ⟨y, _, rfl⟩ := hx
  exact ⟨sigmoid_pos y, sigmoid_lt_one y⟩

/-- Dense layer with a single unit weight and zero bias, for witnesses. -/
noncomputable def unitDense : DenseParams := ⟨[[1]], [0]⟩

/-- Three-layer box head built from `unitDense`, for witnesses. -/
noncomputable def unitMLP : PredictorMLPParams := ⟨unitDense, unitDense, unitDense⟩

/-- Concrete `pred_boxes` output on a 1-patch, 1x1-grid input. -/
noncomputable def boxCexOut : List (List (List ℝ)) :=
  boxPredBoxes id unitMLP "both" [[[0]]] [[[[0]]]]

/-- Witness for C4 at a concrete one-patch input. -/
theorem pred_boxes_strictly_in_unit_interval_witness :
    0 < ((boxCexOut.headD []).headD []).headD 0 ∧
    ((boxCexOut.headD []).headD []).headD 0 < 1 :=
  pred_boxes_strictly_in_unit_interval id unitMLP "both" [[[0]]] [[[[0]]]]
    (boxCexOut.headD []) ((boxCexOut.headD []).headD [])
    (((boxCexOut.headD []).headD []).headD 0)
    (by simp [boxCexOut, boxPredBoxes, computeBoxBias, boxBiasAt,
          predictorMLP, dense, dotProduct, addVec, unitMLP, unitDense,
          List.range_succ])
    (by simp [boxCexOut, boxPredBoxes, computeBoxBias, boxBiasAt,
          predictorMLP, dense, dotProduct, addVec, unitMLP, unitDense,
          List.range_succ])
    (by simp [boxCexOut, boxPredBoxes, computeBoxBias, boxBiasAt,
          predictorMLP, dense, dotProduct, addVec, unitMLP, unitDense,
          List.range_succ])

/-- C9: `box_predictor` is deterministic — two calls with equal
image features and equal feature maps under the same configuration
return equal `pred_boxes`; the box-prediction path takes no RNG and no
training-mode flag. -/
theorem box_predictor_deterministic
    (act : ℝ → ℝ) (p : PredictorMLPParams) (kind : String)
    (f₁ f₂ : List (List (List ℝ))) (m₁ m₂ : List (List (List (List ℝ))))
    (hf : f₁ = f₂) (hm : m₁ = m₂) :
    box_predictor act p kind f₁ m₁ = box_predictor act p kind f₂ m₂ := by
  rw [hf, hm]

/-- Witness for C9 at a concrete repeated input. -/
theorem box_predictor_deterministic_witness :
    box_predictor id unitMLP "both" [[[0]]] [[[[0]]]] =
      box_predictor id unitMLP "both" [[[0]]] [[[[0]]]] :=
  box_predictor_deterministic id unitMLP "both" [[[0]]] [[[0]]]
    [[[[0]]]] [[[[0]]]] rfl rfl

/-- Error raised on a class-predictor contract violation. -/
inductive PredError where
  | invalidArgument
deriving DecidableEq

/-- Configuration and learned state of the class head: the projection of
image features into class embeddings (an external dense layer, kept
abstract), the `normalize` flag, the logit scale, and the large negative
sentinel used for masked-out queries. -/
structure ClassHead where
  project : List ℝ → List ℝ
  normalize : Bool
  scale : ℝ
  negSentinel : ℝ

/-- L2 normalization of an embedding vector. -/
noncomputable def l2normalize (v : List ℝ) : List ℝ :=
  v.map fun x => x / Real.sqrt (dotProduct v v)

/-- Modelled from the spec: the logits of `layers.ClassPredictor` (not
under `src/`). Per §4.2, for one batch element the logit of every
(patch, query) pair is a scaled dot product of the class embedding and
the query embedding (L2-normalizing both first when `normalize` is on),
and logits of masked-out (mask = 0) queries are set to a large negative
sentinel. -/
noncomputable def classLogitsRow (head : ClassHead)
    (classEmb queryEmb : List (List ℝ)) (mask : List ℝ) : List (List ℝ) :=
  classEmb.map fun ce =>
    (queryEmb.zip mask).map fun qm =>
      if qm.2 = 0 then head.negSentinel
      else
        head.scale *
          dotProduct (if head.normalize then l2normalize ce else ce)
            (if head.normalize then l2normalize qm.1 else qm.1)

/-- Zip of three equal-length lists. -/
def zip3 (a : List α) (b : List β) (c : List γ) : List (α × β × γ) :=
  (a.zip (b.zip c)).map fun x => (x.1, x.2.1, x.2.2)

/-- Modelled from the spec: `layers.ClassPredictor.__call__` (not under
`src/`), to which `TextZeroShotDetectionModule.class_predictor`
(models.py lines 80-99) delegates. Per §4.2 it projects image features
into class embeddings; given both query embeddings and a query mask it
also returns similarity logits; given neither it returns only the class
embeddings; and providing exactly one of the two is a contract
violation failing with an InvalidArgument error. -/
noncomputable def class_predictor (head : ClassHead)
    (image_features : List (List (List ℝ)))
    (query_embeddings : Option (List (List (List ℝ))))
    (query_mask : Option (List (List ℝ))) :
    Except PredError (List (String × TensorVal)) :=
  let class_embeddings := image_features.map fun feats => feats.map head.project
  match query_embeddings, query_mask with
  | some qe, some qm =>
      Except.ok [("class_embeddings", TensorVal.t3 class_embeddings),
        ("pred_logits", TensorVal.t3 ((zip3 class_embeddings qe qm).map
          fun t => classLogitsRow head t.1 t.2.1 t.2.2))]
  | none, none =>
      Except.ok [("class_embeddings", TensorVal.t3 class_embeddings)]
  | _, _ => Except.error PredError.invalidArgument

/-- The image and text pathways of the shared backbone embedder,
consumed as opaque capabilities. Modelled from the spec (§6): the
embedder itself is external and not under `src/`; `imageEmbedder` is the
composite of the embedder's image mode with the `seq2img` spatial
rearrangement, returning the `[b, h, w, d]` feature map, and
`textEmbedder` returns `[b, q, d]` query embeddings. Both may depend on
the `train` flag. -/
structure EmbedderFns where
  imageEmbedder : List (List (List (List ℝ))) → Bool → List (List (List (List ℝ)))
  textEmbedder : List (List (List ℤ)) → Bool → List (List (List ℝ))

/-- `TextZeroShotDetectionModule.__call__` (models.py lines 131-175):
embed the images into a feature map, flatten it to per-patch features,
embed the text queries, derive the query mask from the first-token rule,
then merge the feature map, query embeddings, class-predictor outputs
and box-predictor outputs into one record. -/
noncomputable def forward (emb : EmbedderFns) (head : ClassHead)
    (act : ℝ → ℝ) (boxHead : PredictorMLPParams) (box_bias : String)
    (inputs : List (List (List (List ℝ))))
    (text_queries : List (List (List ℤ))) (train : Bool) :
    Except PredError (List (String × TensorVal)) :=
  let feature_map := emb.imageEmbedder inputs train
  let image_features := feature_map.map List.flatten
  let query_embeddings := emb.textEmbedder text_queries train
  let query_mask := queryMask text_queries
  match class_predictor head image_features (some query_embeddings)
      (some query_mask) with
  | Except.error e => Except.error e
  | Except.ok cls =>
      Except.ok ([("feature_map", TensorVal.t4 feature_map),
          ("query_embeddings", TensorVal.t3 query_embeddings)]
        ++ cls ++ box_predictor act boxHead box_bias image_features feature_map)

/-- C6: `class_predictor` fails with an InvalidArgument error when
exactly one of `query_embeddings` and `query_mask` is supplied, and
succeeds when both are supplied or both are absent. -/
theorem class_predictor_arg_contract (head : ClassHead)
    (image_features : List (List (List ℝ)))
    (qe : List (List (List ℝ))) (qm : List (List ℝ)) :
    class_predictor head image_features (some qe) none =
      Except.error PredError.invalidArgument ∧
    class_predictor head image_features none (some qm) =
      Except.error PredError.invalidArgument ∧
    (∃ r, class_predictor head image_features (some qe) (some qm) =
      Except.ok r) ∧
    (∃ r, class_predictor head image_features none none = Except.ok r) :=
  ⟨rfl, rfl, ⟨_, rfl⟩, ⟨_, rfl⟩⟩

/-- Shape predicate: a rectangular `r × c` nested list. -/
def rect2 {α : Type _} (m : List (List α)) (r c : ℕ) : Prop :=
  m.length = r ∧ ∀ row ∈ m, row.length = c

/-- Shape predicate: an `a × r × c` nested list. -/
def rect3 {α : Type _} (t : List (List (List α))) (a r c : ℕ) : Prop :=
  t.length = a ∧ ∀ m ∈ t, rect2 m r c

/-- Shape predicate: an `a × s × r × c` nested list. -/
def rect4 {α : Type _} (t : List (List (List (List α)))) (a s r c : ℕ) : Prop :=
  t.length = a ∧ ∀ x ∈ t, rect3 x s r c

theorem flatten_length_rect {α : Type _} {l : List (List α)} {w : ℕ}
    (hr : ∀ r ∈ l, r.length = w) : l.flatten.length = l.length * w := by
  induction l with
  | nil => simp
  | cons x xs ih =>
      simp only [List.flatten_cons, List.length_append, List.length_cons]
      rw [hr x (by simp), ih fun r hrr => hr r (by simp [hrr])]
      ring

theorem boxBiasAt_length (kind : String) (h w i j : ℕ) :
    (boxBiasAt kind h w i j).length = 4 := by
  unfold boxBiasAt
  split
  · rfl
  · split
    · rfl
    · rfl

theorem computeBoxBias_length (kind : String) (h w : ℕ) :
    (computeBoxBias kind h w).length = h * w := by
  simp [computeBoxBias]

theorem mem_computeBoxBias_length {kind : String} {h w : ℕ} {b : List ℝ}
    (hb : b ∈ computeBoxBias kind h w) : b.length = 4 := by
  simp only [computeBoxBias, List.mem_map] at hb
  obtain ⟨p, _, rfl⟩ := hb
  exact boxBiasAt_length kind h w (p / w) (p % w)

theorem dense_length (p : DenseParams) (x : List ℝ) :
    (dense p x).length = min p.weight.length p.bias.length := by
  simp [dense]

theorem predictorMLP_length (act : ℝ → ℝ) (p : PredictorMLPParams)
    (x : List ℝ) (hw : p.l3.weight.length = 4) (hb : p.l3.bias.length = 4) :
    (predictorMLP act p x).length = 4 := by
  simp [predictorMLP, dense_length, hw, hb]

theorem addVec_length (a b : List ℝ) :
    (addVec a b).length = min a.length b.length := by
  simp [addVec]

theorem zip3_length (a : List α) (b : List β) (c : List γ) :
    (zip3 a b c).length = min a.length (min b.length c.length) := by
  simp [zip3]

theorem mem_zip3 {a : List α} {b : List β} {c : List γ} {x : α × β × γ}
    (h : x ∈ zip3 a b c) : x.1 ∈ a ∧ x.2.1 ∈ b ∧ x.2.2 ∈ c := by
  simp only [zip3, List.mem_map] at h
  obtain ⟨⟨u, v, t⟩, hm, rfl⟩ := h
  obtain ⟨hu, hvt⟩ := List.of_mem_zip hm
  obtain ⟨hv, ht⟩ := List.of_mem_zip hvt
  exact ⟨hu, hv, ht⟩

/-- C5 (amended): for every valid input batch the forward pass returns
a record containing exactly the keys `feature_map`, `query_embeddings`,
`class_embeddings`, `pred_logits` and `pred_boxes` — the class
predictor contributes `class_embeddings` in addition to the four keys
the claim lists — where `pred_logits` has shape [b, h*w, q] and
`pred_boxes` has shape [b, h*w, 4], with h and w the spatial dimensions
of the feature map. -/
theorem forward_output_record
    (emb : EmbedderFns) (head : ClassHead) (act : ℝ → ℝ)
    (boxHead : PredictorMLPParams) (box_bias : String)
    (inputs : List (List (List (List ℝ))))
    (text_queries : List (List (List ℤ))) (train : Bool)
    (b h w d q l dd : ℕ)
    (hbpos : 0 < b) (hhpos : 0 < h)
    (hfm : rect4 (emb.imageEmbedder inputs train) b h w d)
    (hqe : rect3 (emb.textEmbedder text_queries train) b q dd)
    (htq : rect3 text_queries b q l)
    (hw3 : boxHead.l3.weight.length = 4) (hb3 : boxHead.l3.bias.length = 4) :
    ∃ fm qe ce lg bx,
      forward emb head act boxHead box_bias inputs text_queries train =
        Except.ok [("feature_map", TensorVal.t4 fm),
          ("query_embeddings", TensorVal.t3 qe),
          ("class_embeddings", TensorVal.t3 ce),
          ("pred_logits", TensorVal.t3 lg),
          ("pred_boxes", TensorVal.t3 bx)] ∧
      rect3 lg b (h * w) q ∧ rect3 bx b (h * w) 4 := by
  obtain ⟨hfml, hfmr⟩ := hfm
  obtain ⟨hqel, hqer⟩ := hqe
  obtain ⟨htql, htqr⟩ := htq
  have hifs : ∀ f ∈ (emb.imageEmbedder inputs train).map List.flatten,
      f.length = h * w := by
    intro f hf
    rw [List.mem_map] at hf
    obtain ⟨x, hx, rfl⟩ := hf
    obtain ⟨hxl, hxr⟩ := hfmr x hx
    rw [flatten_length_rect (fun r hr => (hxr r hr).1), hxl]
  refine ⟨emb.imageEmbedder inputs train, emb.textEmbedder text_queries train,
    ((emb.imageEmbedder inputs train).map List.flatten).map
      (fun feats => feats.map head.project),
    (zip3 (((emb.imageEmbedder inputs train).map List.flatten).map
          (fun feats => feats.map head.project))
        (emb.textEmbedder text_queries train) (queryMask text_queries)).map
      (fun t => classLogitsRow head t.1 t.2.1 t.2.2),
    boxPredBoxes act boxHead box_bias
      ((emb.imageEmbedder inputs train).map List.flatten)
      (emb.imageEmbedder inputs train),
    ?_, ?_, ?_⟩
  · rfl
  · constructor
    · rw [List.length_map, zip3_length, List.length_map, List.length_map,
        hfml, hqel, queryMask, List.length_map, htql]
      simp
    · intro m hm
      rw [List.mem_map] at hm
      obtain ⟨⟨c, qq, mm⟩, hmem, rfl⟩ := hm
      obtain ⟨hc, hq, hmm⟩ := mem_zip3 hmem
      constructor
      · simp only [classLogitsRow, List.length_map]
        rw [List.mem_map] at hc
        obtain ⟨f, hf, rfl⟩ := hc
        rw [List.length_map]
        exact hifs f hf
      · intro row hrow
        simp only [classLogitsRow, List.mem_map] at hrow
        obtain ⟨ce0, _, rfl⟩ := hrow
        rw [List.length_map, List.length_zip]
        have hqq : qq.length = q := (hqer qq hq).1
        rw [queryMask, List.mem_map] at hmm
        obtain ⟨qs, hqs, rfl⟩ := hmm
        have hmml : (queryMaskRow qs).length = q := by
          rw [queryMaskRow, List.length_map, (htqr qs hqs).1]
        rw [hqq, hmml]
        simp
  · obtain ⟨y, ys, hfmc⟩ : ∃ y ys,
        emb.imageEmbedder inputs train = y :: ys := by
      cases hE : emb.imageEmbedder inputs train with
      | nil => rw [hE] at hfml; simp at hfml; omega
      | cons y ys => exact ⟨y, ys, rfl⟩
    have hy : y ∈ emb.imageEmbedder inputs train := by
      rw [hfmc]
      exact List.mem_cons_self y ys
    obtain ⟨hyl, hyr⟩ := hfmr y hy
    obtain ⟨r0, rs, hyc⟩ : ∃ r0 rs, y = r0 :: rs := by
      cases hy2 : y with
      | nil => rw [hy2] at hyl; simp at hyl; omega
      | cons r0 rs => exact ⟨r0, rs, rfl⟩
    have hr0 : r0.length = w := by
      refine ((hyr r0 ?_)).1
      rw [hyc]
      exact List.mem_cons_self r0 rs
    have hgrid : ((emb.imageEmbedder inputs train).headD []).length = h := by
      rw [hfmc, List.headD_cons, hyl]
    have wgrid : (((emb.imageEmbedder inputs train).headD []).headD []).length
        = w := by
      rw [hfmc, List.headD_cons, hyc, List.headD_cons, hr0]
    simp only [boxPredBoxes, hgrid, wgrid]
    constructor
    · rw [List.length_map, List.length_map, hfml]
    · intro batch hb2
      rw [List.mem_map] at hb2
      obtain ⟨f, hf, rfl⟩ := hb2
      constructor
      · rw [List.length_map, List.length_zip, List.length_map,
          computeBoxBias_length, hifs f hf]
        simp
      · intro row hrow
        rw [List.mem_map] at hrow
        obtain ⟨⟨mo, bi⟩, hmb, rfl⟩ := hrow
        obtain ⟨hmo, hbi⟩ := List.of_mem_zip hmb
        rw [List.mem_map] at hmo
        obtain ⟨fv, _, rfl⟩ := hmo
        rw [List.length_map, addVec_length,
          predictorMLP_length act boxHead fv hw3 hb3,
          mem_computeBoxBias_length hbi]
        simp

/-- Constant tiny embedder (b = h = w = d = 1, q = 1) for witnesses. -/
noncomputable def fwdCexEmb : EmbedderFns :=
  ⟨fun _ _ => [[[[0]]]], fun _ _ => [[[0]]]⟩

/-- Identity-projection class head for witnesses. -/
noncomputable def fwdCexHead : ClassHead :=
  ⟨id, false, 1, -(10 : ℝ) ^ 6⟩

/-- Box head whose last layer has four unit rows, for witnesses. -/
noncomputable def boxHead4 : PredictorMLPParams :=
  ⟨unitDense, unitDense, ⟨[[1], [1], [1], [1]], [0, 0, 0, 0]⟩⟩

/-- Witness for C5's amended theorem at a concrete singleton batch. -/
theorem forward_output_record_witness :
    ∃ fm qe ce lg bx,
      forward fwdCexEmb fwdCexHead id boxHead4 "both" [[[[0]]]] [[[1]]] false =
        Except.ok [("feature_map", TensorVal.t4 fm),
          ("query_embeddings", TensorVal.t3 qe),
          ("class_embeddings", TensorVal.t3 ce),
          ("pred_logits", TensorVal.t3 lg),
          ("pred_boxes", TensorVal.t3 bx)] ∧
      rect3 lg 1 (1 * 1) 1 ∧ rect3 bx 1 (1 * 1) 4 :=
  forward_output_record fwdCexEmb fwdCexHead id boxHead4 "both"
    [[[[0]]]] [[[1]]] false 1 1 1 1 1 1 1
    (by decide) (by decide)
    (by simp [fwdCexEmb, rect4, rect3, rect2])
    (by simp [fwdCexEmb, rect3, rect2])
    (by simp [rect3, rect2])
    (by simp [boxHead4]) (by simp [boxHead4])

/-- C5 counterexample: the forward pass's output record does not carry
exactly the four keys `feature_map`, `query_embeddings`, `pred_logits`,
`pred_boxes` — it also carries `class_embeddings` from the class
predictor. -/
theorem forward_extra_key_cex :
    (forward fwdCexEmb fwdCexHead id boxHead4 "both" [[[[0]]]] [[[1]]]
        false).map (fun out => out.map Prod.fst) =
      Except.ok ["feature_map", "query_embeddings", "class_embeddings",
        "pred_logits", "pred_boxes"] ∧
    (["feature_map", "query_embeddings", "class_embeddings",
        "pred_logits", "pred_boxes"] : List String) ≠
      ["feature_map", "query_embeddings", "pred_logits", "pred_boxes"] := by
  constructor
  · rfl
  · simp
